import Mathlib

/-!
Verification of the KSL pre-processing tool (`trim_sign_language_data.py`).

The Python source is shallowly embedded below: Python floats are modelled as
rationals (`ℚ`), Python ints as `ℤ`/`ℕ`, filesystem interaction is modelled by
an explicit environment (`Env`) supplying the glob results, the metadata-file
loader and the per-file copy success, and by an explicit trace of filesystem
write effects (`FsEffect`).  A Python function that can raise an uncaught
exception is modelled as returning `Option` (`none` = an exception escapes).
-/

namespace KSL

/-- The timing metadata extracted by `load_morpheme_data`:
`data[0].start`, `data[0].end`, `metaData.duration`. -/
structure TimingRecord where
  start_time : ℚ
  end_time : ℚ
  duration : ℚ
deriving DecidableEq

/-- Python `int(q)`: truncation toward zero. -/
def trunc (q : ℚ) : ℤ := if q < 0 then ⌈q⌉ else ⌊q⌋

/-- `get_frame_range` (lines 59-83 of `trim_sign_language_data.py`).
`none` models the `ZeroDivisionError` raised by `total_frames / duration`
when `duration == 0`. -/
def get_frame_range (start_time end_time duration : ℚ) (total_frames : ℤ)
    (offset : ℤ) : Option (ℤ × ℤ) :=
  if duration = 0 then none
  else
    let fps : ℚ := (total_frames : ℚ) / duration
    let start_frame := trunc (start_time * fps) - offset
    let end_frame := trunc (end_time * fps) + offset
    some (max 0 start_frame, min (total_frames - 1) end_frame)

/-! ### String helpers mirroring the Python string operations -/

/-- Worker for `splitChar`: accumulates the current token (reversed). -/
def splitOnCharAux (sep : Char) : List Char → List Char → List (List Char)
  | [], acc => [acc.reverse]
  | c :: cs, acc =>
    if c = sep then acc.reverse :: splitOnCharAux sep cs []
    else splitOnCharAux sep cs (c :: acc)

/-- Python `s.split(sep)` for a single-character separator. -/
def splitChar (sep : Char) (s : String) : List String :=
  (splitOnCharAux sep s.data []).map String.mk

/-- Does the character list contain the two-character substring `_F`? -/
def hasUnderscoreF : List Char → Bool
  | '_' :: 'F' :: _ => true
  | _ :: cs => hasUnderscoreF cs
  | [] => false

/-- Python `'_F' in folder_name` (line 103). -/
def hasF (s : String) : Bool := hasUnderscoreF s.data

/-- Python `part.startswith('WORD')` (line 113). -/
def startsWithWORD : List Char → Bool
  | 'W' :: 'O' :: 'R' :: 'D' :: _ => true
  | _ => false

/-- Python `part in ['F', 'D', 'L', 'R', 'U']` (line 115). -/
def isViewCode (s : String) : Bool :=
  s = "F" || s = "D" || s = "L" || s = "R" || s = "U"

/-- The Python loop on lines 112-116 assigns on every match, so the *last*
matching token wins. -/
def lastSat (p : String → Bool) : List String → Option String
  | [] => none
  | x :: xs =>
    match lastSat p xs with
    | some y => some y
    | none => if p x then some x else none

/-- The `word_num` extracted from a folder name. -/
def findWord (name : String) : Option String :=
  lastSat (fun t => startsWithWORD t.data) (splitChar '_' name)

/-- The `view_dir` extracted from a folder name. -/
def findView (name : String) : Option String :=
  lastSat isViewCode (splitChar '_' name)

/-- Lexicographic (code-point) order on character lists, as in Python's
string comparison. -/
def charListLe : List Char → List Char → Bool
  | [], _ => true
  | _ :: _, [] => false
  | a :: as, b :: bs => if a = b then charListLe as bs else decide (a < b)

/-- Python `s1 <= s2` on strings. -/
def strLe (a b : String) : Bool := charListLe a.data b.data

/-- Insert into a sorted list (helper for `sortStrings`). -/
def insertSorted (x : String) : List String → List String
  | [] => [x]
  | y :: ys => if strLe x y then x :: y :: ys else y :: insertSorted x ys

/-- Python `sorted(...)` on a list of strings. -/
def sortStrings (l : List String) : List String := l.foldr insertSorted []

/-- Python `os.path.basename` (posix). -/
def basename (p : String) : String :=
  ((splitOnCharAux '/' p.data []).map String.mk).getLastD ""

/-- Python `f"{i:012d}"` for a nonnegative `i`. -/
def zeroPad12 (i : ℕ) : String :=
  let s := Nat.toDigits 10 i
  String.mk (List.replicate (12 - s.length) '0' ++ s)

/-- Python `'_'.join(parts)`. -/
def joinUnderscore : List String → String
  | [] => ""
  | [x] => x
  | x :: xs => x ++ "_" ++ joinUnderscore xs

/-- Lines 167-171: replace the second-to-last `_`-token of the filename by the
zero-padded sequential index. -/
def renameFrame (base_name : String) (i : ℕ) : String :=
  let parts := splitChar '_' base_name
  joinUnderscore (parts.set (parts.length - 2) (zeroPad12 i))

/-- Python `range(a, b + 1)` as a list of integers. -/
def rangeInt (a b : ℤ) : List ℤ :=
  (List.range (b + 1 - a).toNat).map (fun (k : ℕ) => a + (k : ℤ))

/-! ### The folder processor -/

/-- A filesystem write performed by the folder processor. -/
inductive FsEffect where
  | mkdirP (path : String)
  | copy (src dst : String)
deriving DecidableEq

/-- The loosely-typed Python result dictionary returned by
`process_sign_folder`.  Absent keys are modelled by the default field
values (`false` / `none` / `0`), matching `result.get(...)`. -/
structure ResultDict where
  skipped : Bool := false
  reason : Option String := none
  error : Option String := none
  succ : Bool := false
  folder : Option String := none
  total_frames : ℤ := 0
  start_frame : ℤ := 0
  end_frame : ℤ := 0
  kept_frames : ℤ := 0
  trimmed_frames : ℤ := 0
  start_time : ℚ := 0
  end_time : ℚ := 0
deriving DecidableEq

/-- The filesystem environment one call of `process_sign_folder` sees:
the basename of the keypoint folder, the morpheme folder path, the raw
(unsorted, filesystem-listing-order) glob results for the morpheme pattern
and for `*_keypoints.json`, the metadata loader, and whether copying a
given source file succeeds. -/
structure Env where
  folder_name : String
  morpheme_folder : String
  morpheme_glob : List String
  keypoint_glob : List String
  load : String → Except String TimingRecord
  copy_ok : String → Bool
  output_base : String

/-- The morpheme glob pattern built on line 123. -/
def morphemePattern (env : Env) (word_num view_dir : String) : String :=
  env.morpheme_folder ++ "/NIA_SL_" ++ word_num ++ "_REAL*_" ++ view_dir ++
    "_morpheme.json"

/-- The frame-copy loop (lines 161-176).  `copy_ok` tells whether
`shutil.copy2` succeeds on a given source file; `none` models an uncaught
copy exception; with `dry_run` no copy is attempted. -/
def copyLoop (copy_ok : String → Bool) (dry_run : Bool) (output_folder : String)
    (keypoint_files : List String) : List (ℕ × ℤ) → Option (List FsEffect)
  | [] => some []
  | (i, frame_idx) :: rest =>
    let src_file := keypoint_files.getD frame_idx.toNat ""
    if dry_run then copyLoop copy_ok dry_run output_folder keypoint_files rest
    else
      let dst_file := output_folder ++ "/" ++ renameFrame (basename src_file) i
      if copy_ok src_file then
        match copyLoop copy_ok dry_run output_folder keypoint_files rest with
        | none => none
        | some es => some (FsEffect.copy src_file dst_file :: es)
      else none

/-- `process_sign_folder` (lines 86-188).  Returns the result dictionary and
the trace of filesystem writes, or `none` when an uncaught exception
escapes (division by zero in `get_frame_range`, or a copy failure). -/
def process_sign_folder (env : Env) (dry_run : Bool) :
    Option (ResultDict × List FsEffect) :=
  let folder_name := env.folder_name
  if hasF folder_name = false then
    some ({ skipped := true, reason := some "Not F view" }, [])
  else
    match findWord folder_name, findView folder_name with
    | some word_num, some view_dir =>
      match env.morpheme_glob with
      | [] =>
        some ({ error := some ("Morpheme file not found with pattern: " ++
          morphemePattern env word_num view_dir) }, [])
      | morpheme_file :: _ =>
        let keypoint_files := sortStrings env.keypoint_glob
        let total_frames : ℤ := (keypoint_files.length : ℤ)
        if total_frames = 0 then
          some ({ error := some "No keypoint files found" }, [])
        else
          match env.load morpheme_file with
          | Except.error e =>
            some ({ error := some ("Error loading morpheme data: " ++ e) }, [])
          | Except.ok tr =>
            match get_frame_range tr.start_time tr.end_time tr.duration
                total_frames 10 with
            | none => none
            | some (start_frame, end_frame) =>
              let frames_to_keep := end_frame - start_frame + 1
              let output_folder := env.output_base ++ "/" ++ folder_name
              let dir_effects :=
                if dry_run then [] else [FsEffect.mkdirP output_folder]
              match copyLoop env.copy_ok dry_run output_folder keypoint_files
                  (rangeInt start_frame end_frame).enum with
              | none => none
              | some copy_effects =>
                some ({ succ := true, folder := some folder_name,
                        total_frames := total_frames,
                        start_frame := start_frame, end_frame := end_frame,
                        kept_frames := frames_to_keep,
                        trimmed_frames := total_frames - frames_to_keep,
                        start_time := tr.start_time,
                        end_time := tr.end_time },
                      dir_effects ++ copy_effects)
    | _, _ =>
      some ({ error := some ("Cannot parse folder name: " ++ folder_name) }, [])

/-! ### The orchestrator pieces the claims need -/

/-- Lines 282-290: the error-report line built for one result dictionary,
`result.get('folder', 'Unknown') + ": " + result['error']`; `none` when the
result is not an error. -/
def errorLineOf (r : ResultDict) : Option String :=
  if r.skipped then none
  else
    match r.error with
    | some msg => some (r.folder.getD "Unknown" ++ ": " ++ msg)
    | none => none

/-- Lines 263-264: the worker count actually used,
`num_workers if num_workers is not None else max(1, mp.cpu_count() - 1)`. -/
def resolve_num_workers (num_workers : Option ℕ) (cpu_count : ℕ) : ℕ :=
  match num_workers with
  | none => max 1 (cpu_count - 1)
  | some k => k

/-- Modelled from the spec: the worker-pool size the spec prescribes,
`min(configured_workers, available_cores - 1)` when configured, else
`available_cores - 1` with a minimum of `1`. -/
def spec_pool_size (configured : Option ℕ) (cpu_count : ℕ) : ℕ :=
  match configured with
  | some k => min k (cpu_count - 1)
  | none => max 1 (cpu_count - 1)

/-- Lines 262-279 of `process_dataset`: dispatch of the job list.  The first
component records whether the worker pool was used and, if so, with which
resolved size; the second is the list of job results (in job order; both
the sequential loop and `pool.imap` preserve order). -/
def run_tasks (tasks : List Env) (use_multiprocessing dry_run : Bool)
    (num_workers : Option ℕ) (cpu_count : ℕ) :
    (Bool × Option ℕ) × List (Option (ResultDict × List FsEffect)) :=
  if use_multiprocessing && !dry_run then
    ((true, some (resolve_num_workers num_workers cpu_count)),
      tasks.map (fun t => process_sign_folder t dry_run))
  else
    ((false, none), tasks.map (fun t => process_sign_folder t dry_run))

/-! ### Concrete environments used by witnesses and counterexamples -/

/-- A well-formed timing record for a 1-second clip. -/
def okTiming : TimingRecord := { start_time := 0, end_time := 1, duration := 1 }

/-- A small healthy environment: a Front-view folder with one keypoint file,
one morpheme match, a valid timing record and succeeding copies. -/
def baseEnv : Env :=
  { folder_name := "NIA_SL_WORD0001_REAL01_F"
    morpheme_folder := "morph"
    morpheme_glob := ["m.json"]
    keypoint_glob := ["k_000000000000_keypoints.json"]
    load := fun _ => Except.ok okTiming
    copy_ok := fun _ => true
    output_base := "out" }

/-- `baseEnv` with a zero-duration timing record. -/
def envZeroDur : Env :=
  { baseEnv with
    load := fun _ => Except.ok { start_time := 0, end_time := 0, duration := 0 } }

/-- `baseEnv` with every copy failing. -/
def envCopyFail : Env := { baseEnv with copy_ok := fun _ => false }

/-- `baseEnv` with a morpheme file that fails to load. -/
def envLoadFail : Env := { baseEnv with load := fun _ => Except.error "corrupt" }

/-- `baseEnv` with no morpheme match at all. -/
def envNoMorpheme : Env := { baseEnv with morpheme_glob := ([] : List String) }

/-- `baseEnv` with two morpheme matches listed in the order `b.json`,
`a.json` (a filesystem listing order that is not sorted); only `a.json`
parses. -/
def envOrderBA : Env :=
  { baseEnv with
    morpheme_glob := ["b.json", "a.json"]
    load := fun f =>
      if f = "a.json" then Except.ok okTiming else Except.error "corrupt" }

/-- The same environment with the two matches listed in sorted order. -/
def envOrderAB : Env := { envOrderBA with morpheme_glob := ["a.json", "b.json"] }

/-- `baseEnv` with two keypoint frames and a timing record whose clamped
frame range is inverted (`start_frame = 0 > end_frame = -2`). -/
def envEmptyRange : Env :=
  { baseEnv with
    keypoint_glob := ["k_000000000000_keypoints.json",
                      "k_000000000001_keypoints.json"]
    load := fun _ => Except.ok { start_time := 0, end_time := -6, duration := 1 } }

/-- The success dictionary `process_sign_folder` produces on `envEmptyRange`. -/
def emptyRangeDict : ResultDict :=
  { succ := true, folder := some "NIA_SL_WORD0001_REAL01_F",
    total_frames := 2, start_frame := 0, end_frame := -2,
    kept_frames := -1, trimmed_frames := 3, start_time := 0, end_time := -6 }

/-- The error message produced on `envNoMorpheme`. -/
def msgNoMorpheme : String :=
  "Morpheme file not found with pattern: morph/NIA_SL_WORD0001_REAL*_F_morpheme.json"

/-- Proof helper: the result dictionary `process_sign_folder` computes,
which does not depend on `dry_run` or on copy success. -/
def pureOutcome (env : Env) : Option ResultDict :=
  if hasF env.folder_name = false then
    some { skipped := true, reason := some "Not F view" }
  else
    match findWord env.folder_name, findView env.folder_name with
    | some word_num, some view_dir =>
      match env.morpheme_glob with
      | [] => some { error := some ("Morpheme file not found with pattern: " ++
          morphemePattern env word_num view_dir) }
      | morpheme_file :: _ =>
        let total_frames : ℤ := ((sortStrings env.keypoint_glob).length : ℤ)
        if total_frames = 0 then some { error := some "No keypoint files found" }
        else
          match env.load morpheme_file with
          | Except.error e =>
            some { error := some ("Error loading morpheme data: " ++ e) }
          | Except.ok tr =>
            match get_frame_range tr.start_time tr.end_time tr.duration
                total_frames 10 with
            | none => none
            | some (start_frame, end_frame) =>
              some { succ := true, folder := some env.folder_name,
                     total_frames := total_frames,
                     start_frame := start_frame, end_frame := end_frame,
                     kept_frames := end_frame - start_frame + 1,
                     trimmed_frames := total_frames - (end_frame - start_frame + 1),
                     start_time := tr.start_time, end_time := tr.end_time }
    | _, _ =>
      some { error := some ("Cannot parse folder name: " ++ env.folder_name) }

/-! ### Helper lemmas -/

theorem get_frame_range_eq_some {st en d : ℚ} {tf off sf ef : ℤ}
    (h : get_frame_range st en d tf off = some (sf, ef)) :
    sf = max 0 (trunc (st * ((tf : ℚ) / d)) - off) ∧
    ef = min (tf - 1) (trunc (en * ((tf : ℚ) / d)) + off) := by
  unfold get_frame_range at h
  split at h
  · exact absurd h (by simp)
  · simp only [Option.some.injEq, Prod.mk.injEq] at h
    exact ⟨h.1.symm, h.2.symm⟩

theorem rangeInt_eq_nil {a b : ℤ} (h : b < a) : rangeInt a b = [] := by
  unfold rangeInt
  have hz : (b + 1 - a).toNat = 0 := Int.toNat_of_nonpos (by omega)
  rw [hz]
  rfl

theorem rangeInt_cons {a b : ℤ} (h : a ≤ b) :
    ∃ l, rangeInt a b = a :: l := by
  unfold rangeInt
  have hs : (b + 1 - a).toNat = (b - a).toNat + 1 := by omega
  rw [hs, List.range_succ_eq_map, List.map_cons]
  exact ⟨List.map (fun (k : ℕ) => a + (k : ℤ))
    (List.map Nat.succ (List.range (b - a).toNat)), by norm_num⟩

theorem copyLoop_dry (copy_ok : String → Bool) (out : String)
    (files : List String) :
    ∀ l, copyLoop copy_ok true out files l = some [] := by
  intro l
  induction l with
  | nil => rfl
  | cons p rest ih =>
    obtain ⟨i, idx⟩ := p
    simpa [copyLoop] using ih

theorem copyLoop_fail (copy_ok : String → Bool) (out : String)
    (files : List String) (hc : ∀ f, copy_ok f = false) (i : ℕ) (idx : ℤ)
    (rest : List (ℕ × ℤ)) :
    copyLoop copy_ok false out files ((i, idx) :: rest) = none := by
  simp [copyLoop, hc]

/-! ### Claims about the frame range calculator -/

/-- Claim C4: for every input with `0 ≤ start_time ≤ end_time ≤ duration`,
whenever `get_frame_range` returns a pair `(start_frame, end_frame)`, it
satisfies `0 ≤ start_frame` and `end_frame ≤ total_frames - 1`. -/
theorem claim_C4 (st en d : ℚ) (tf off sf ef : ℤ)
    (h0 : 0 ≤ st) (h1 : st ≤ en) (h2 : en ≤ d)
    (h : get_frame_range st en d tf off = some (sf, ef)) :
    0 ≤ sf ∧ ef ≤ tf - 1 := by
  obtain ⟨hs, he⟩ := get_frame_range_eq_some h
  subst hs
  subst he
  exact ⟨le_max_left _ _, min_le_left _ _⟩

/-- Witness for C4: the spec's example input `(1, 3, 5, 100)` with
`offset = 10` yields the in-bounds pair `(10, 70)`. -/
theorem claim_C4_witness : (0 : ℤ) ≤ 10 ∧ (70 : ℤ) ≤ 100 - 1 :=
  claim_C4 1 3 5 100 10 10 70 (by norm_num) (by norm_num) (by norm_num)
    (by with_unfolding_all decide)

/-- Claim C5: when the clamped computation yields `start_frame > end_frame`,
`get_frame_range` returns exactly the clamped values as computed (no swap,
no flooring, no widening), and the folder processor's copy loop over
`[start_frame, end_frame]` copies zero frames. -/
theorem claim_C5 (st en d : ℚ) (tf off sf ef : ℤ)
    (h : get_frame_range st en d tf off = some (sf, ef)) (hgt : ef < sf) :
    sf = max 0 (trunc (st * ((tf : ℚ) / d)) - off) ∧
    ef = min (tf - 1) (trunc (en * ((tf : ℚ) / d)) + off) ∧
    rangeInt sf ef = [] ∧
    (∀ copy_ok dry out files,
      copyLoop copy_ok dry out files (rangeInt sf ef).enum = some []) := by
  obtain ⟨hs, he⟩ := get_frame_range_eq_some h
  have hnil : rangeInt sf ef = [] := rangeInt_eq_nil hgt
  refine ⟨hs, he, hnil, fun copy_ok dry out files => ?_⟩
  rw [hnil]
  rfl

/-- Witness for C5: at `(0, 0, 1, 5)` with `offset = -3` the clamped pair is
the inverted `(3, -3)`, kept as-is, and the copy loop copies nothing. -/
theorem claim_C5_witness :
    rangeInt 3 (-3) = [] ∧
    copyLoop baseEnv.copy_ok false "out" [] (rangeInt 3 (-3)).enum = some [] := by
  have h := claim_C5 0 0 1 5 (-3) 3 (-3) (by with_unfolding_all decide)
    (by norm_num)
  exact ⟨h.2.2.1, h.2.2.2 baseEnv.copy_ok false "out" []⟩

/-- Claim C8: with `duration > 0`, increasing the offset never increases
`start_frame` and never decreases `end_frame`. -/
theorem claim_C8 (st en d : ℚ) (tf o1 o2 s1 e1 s2 e2 : ℤ)
    (hd : 0 < d) (ho : o1 ≤ o2)
    (h1 : get_frame_range st en d tf o1 = some (s1, e1))
    (h2 : get_frame_range st en d tf o2 = some (s2, e2)) :
    s2 ≤ s1 ∧ e1 ≤ e2 := by
  obtain ⟨hs1, he1⟩ := get_frame_range_eq_some h1
  obtain ⟨hs2, he2⟩ := get_frame_range_eq_some h2
  subst hs1
  subst he1
  subst hs2
  subst he2
  exact ⟨max_le_max le_rfl (by omega), min_le_min le_rfl (by omega)⟩

/-- Witness for C8: at `(1, 3, 5, 100)`, offset `0` gives `(20, 60)` and
offset `10` gives `(10, 70)`: the range only widens. -/
theorem claim_C8_witness : (10 : ℤ) ≤ 20 ∧ (60 : ℤ) ≤ 70 :=
  claim_C8 1 3 5 100 0 10 20 60 10 70 (by norm_num) (by norm_num)
    (by with_unfolding_all decide) (by with_unfolding_all decide)

/-! ### Claims about the orchestrator's dispatch -/

/-- Claim C7, counterexample: with 4 available cores and 100 configured
workers, the code creates a pool of 100 workers, not
`min(100, 4 - 1) = 3` as the claim states. -/
theorem claim_C7_counterexample :
    (run_tasks [] true false (some 100) 4).1.2 = some 100 ∧
    spec_pool_size (some 100) 4 = 3 ∧
    (run_tasks [] true false (some 100) 4).1.2 ≠
      some (spec_pool_size (some 100) 4) := by
  refine ⟨rfl, rfl, ?_⟩
  decide

/-- Claim C7 (amended): when a worker count is configured, the pool size is
exactly the configured count (no clamping by the core count); only when no
count is configured does it default to `available_cores - 1` with a minimum
of 1, as the spec prescribes for that case. -/
theorem claim_C7_amended (k c : ℕ) :
    resolve_num_workers (some k) c = k ∧
    resolve_num_workers none c = max 1 (c - 1) ∧
    resolve_num_workers none c = spec_pool_size none c :=
  ⟨rfl, rfl, rfl⟩

/-- Claim C9: with `dry_run` true the jobs are executed sequentially even if
parallel execution is enabled; the worker pool is used exactly when
`use_multiprocessing` is true and `dry_run` is false. -/
theorem claim_C9 (tasks : List Env) (ump dr : Bool) (nw : Option ℕ)
    (cc : ℕ) :
    (run_tasks tasks ump true nw cc).1.1 = false ∧
    ((run_tasks tasks ump dr nw cc).1.1 = true ↔ ump = true ∧ dr = false) := by
  cases ump <;> cases dr <;> simp [run_tasks]

/-! ### Folder-processor structure lemmas -/


theorem process_true_eq (env : Env) :
    process_sign_folder env true = (pureOutcome env).map (fun r => (r, [])) := by
  unfold process_sign_folder pureOutcome
  repeat' split
  all_goals simp_all [copyLoop_dry]
  all_goals repeat' split
  all_goals simp_all



theorem process_false_eq (env : Env) (r : ResultDict) (es : List FsEffect)
    (h : process_sign_folder env false = some (r, es)) :
    pureOutcome env = some r := by
  unfold process_sign_folder at h
  unfold pureOutcome
  repeat' split at h
  all_goals repeat' split
  all_goals simp_all
  all_goals repeat' split at h
  all_goals repeat' split
  all_goals simp_all

theorem process_error_shape (env : Env) (dry : Bool) (r : ResultDict)
    (es : List FsEffect) (m : String)
    (h : process_sign_folder env dry = some (r, es)) (he : r.error = some m) :
    r.folder = none ∧ r.skipped = false := by
  unfold process_sign_folder at h
  repeat' split at h
  all_goals simp_all
  all_goals repeat' split at h
  all_goals simp_all
  all_goals (try (obtain ⟨h1, h2⟩ := h; subst h1))
  all_goals simp_all

theorem process_false_success (env : Env) (r : ResultDict) (es : List FsEffect)
    (h : process_sign_folder env false = some (r, es)) (hs : r.succ = true) :
    ∃ ce, es = FsEffect.mkdirP (env.output_base ++ "/" ++ env.folder_name) :: ce ∧
      copyLoop env.copy_ok false (env.output_base ++ "/" ++ env.folder_name)
        (sortStrings env.keypoint_glob)
        (rangeInt r.start_frame r.end_frame).enum = some ce := by
  unfold process_sign_folder at h
  repeat' split at h
  all_goals simp_all
  all_goals repeat' split at h
  all_goals simp_all
  all_goals (try (obtain ⟨h1, h2⟩ := h; subst h1; subst h2))
  all_goals simp_all



/-- Claim C6: for every folder, whenever a real (`dry_run = false`) run of
`process_sign_folder` returns an outcome, the dry run returns the very same
outcome dictionary (identical statistics) with an empty list of filesystem
writes; and a dry run never performs any filesystem write. -/
theorem claim_C6 (env : Env) :
    (∀ r es, process_sign_folder env false = some (r, es) →
      process_sign_folder env true = some (r, [])) ∧
    (∀ r es, process_sign_folder env true = some (r, es) → es = []) := by
  constructor
  · intro r es h
    rw [process_true_eq, process_false_eq env r es h]
    rfl
  · intro r es h
    rw [process_true_eq] at h
    rcases hp : pureOutcome env with _ | r'
    · rw [hp] at h
      simp at h
    · rw [hp] at h
      simp only [Option.map_some', Option.some.injEq, Prod.mk.injEq] at h
      exact h.2.symm

/-- Witness for C6: on `envEmptyRange` the real run returns the success
dictionary together with one `mkdir` write, and the dry run returns the
same dictionary with zero writes. -/
theorem claim_C6_witness :
    process_sign_folder envEmptyRange true = some (emptyRangeDict, []) :=
  (claim_C6 envEmptyRange).1 emptyRangeDict
    [FsEffect.mkdirP "out/NIA_SL_WORD0001_REAL01_F"]
    (by with_unfolding_all decide)

/-- Claim C10: in a real run, a successful `process_sign_folder` creates the
output directory before any frame copy (the first filesystem write is the
`mkdir`), and when the kept range is empty (`start_frame > end_frame`) the
write trace is exactly that single `mkdir`, with a Success outcome. -/
theorem claim_C10 (env : Env) (r : ResultDict) (es : List FsEffect)
    (h : process_sign_folder env false = some (r, es)) (hs : r.succ = true) :
    es.head? = some (FsEffect.mkdirP (env.output_base ++ "/" ++ env.folder_name)) ∧
    (r.end_frame < r.start_frame →
      es = [FsEffect.mkdirP (env.output_base ++ "/" ++ env.folder_name)]) := by
  obtain ⟨ce, hes, hce⟩ := process_false_success env r es h hs
  subst hes
  refine ⟨rfl, fun hlt => ?_⟩
  rw [rangeInt_eq_nil hlt] at hce
  simp only [List.enum_nil, copyLoop, Option.some.injEq] at hce
  subst hce
  rfl

/-- Witness for C10: on `envEmptyRange` (kept range `(0, -2)`) the real run
succeeds and its trace is exactly the single `mkdir` of the output folder. -/
theorem claim_C10_witness :
    [FsEffect.mkdirP "out/NIA_SL_WORD0001_REAL01_F"] =
      [FsEffect.mkdirP
        (envEmptyRange.output_base ++ "/" ++ envEmptyRange.folder_name)] :=
  (claim_C10 envEmptyRange emptyRangeDict
    [FsEffect.mkdirP "out/NIA_SL_WORD0001_REAL01_F"]
    (by with_unfolding_all decide) rfl).2 (by decide)

/-- Claim C3, counterexample: the error outcome produced when no morpheme
file matches carries no folder name, and the orchestrator's report line for
it reads `Unknown: <message>`, not `<folder_name>: <message>`. -/
theorem claim_C3_counterexample :
    process_sign_folder envNoMorpheme false =
      some ({ error := some msgNoMorpheme }, []) ∧
    errorLineOf { error := some msgNoMorpheme } =
      some ("Unknown: " ++ msgNoMorpheme) ∧
    "Unknown: " ++ msgNoMorpheme ≠
      envNoMorpheme.folder_name ++ ": " ++ msgNoMorpheme := by
  refine ⟨by with_unfolding_all decide, rfl, by decide⟩

/-- Claim C3 (amended): every error outcome of `process_sign_folder` carries
`none` for the folder name, so the orchestrator's report line always uses
the placeholder `Unknown` instead of the actual folder name. -/
theorem claim_C3_amended (env : Env) (dry : Bool) (r : ResultDict)
    (es : List FsEffect) (m : String)
    (h : process_sign_folder env dry = some (r, es)) (he : r.error = some m) :
    r.folder = none ∧ errorLineOf r = some ("Unknown: " ++ m) := by
  obtain ⟨hf, hsk⟩ := process_error_shape env dry r es m h he
  refine ⟨hf, ?_⟩
  unfold errorLineOf
  rw [hsk, he, hf]
  rfl

/-- Witness for C3 (amended), at the concrete no-morpheme environment. -/
theorem claim_C3_witness :
    ({ error := some msgNoMorpheme } : ResultDict).folder = none ∧
    errorLineOf { error := some msgNoMorpheme } =
      some ("Unknown: " ++ msgNoMorpheme) :=
  claim_C3_amended envNoMorpheme false { error := some msgNoMorpheme } []
    msgNoMorpheme (by with_unfolding_all decide) rfl



/-- Claim C1, counterexample: a zero-duration timing record makes
`process_sign_folder` raise (division by zero) instead of returning an
`Error` outcome, and a failing copy likewise raises out of the frame-copy
loop; both escape the folder-processor boundary (`none`). -/
theorem claim_C1_counterexample :
    process_sign_folder envZeroDur false = none ∧
    process_sign_folder envCopyFail false = none := by
  constructor
  · with_unfolding_all decide
  · with_unfolding_all decide

/-- Claim C1 (amended): only the morpheme-loading step is guarded: a loader
failure is caught and returned as an `Error` outcome, but a zero-duration
timing record (division by zero in `get_frame_range`) and a copy failure in
the frame-copy loop both raise exceptions that escape `process_sign_folder`
and would terminate the orchestrator's job loop or worker pool. -/
theorem claim_C1_amended (env : Env) (dry : Bool) (w v m : String)
    (tail : List String)
    (hF : hasF env.folder_name = true)
    (hw : findWord env.folder_name = some w)
    (hv : findView env.folder_name = some v)
    (hg : env.morpheme_glob = m :: tail)
    (hk : ((sortStrings env.keypoint_glob).length : ℤ) ≠ 0) :
    (∀ e, env.load m = Except.error e →
      process_sign_folder env dry =
        some ({ error := some ("Error loading morpheme data: " ++ e) }, [])) ∧
    (∀ tr, env.load m = Except.ok tr → tr.duration = 0 →
      process_sign_folder env dry = none) ∧
    (∀ tr sf ef, env.load m = Except.ok tr →
      get_frame_range tr.start_time tr.end_time tr.duration
        ((sortStrings env.keypoint_glob).length : ℤ) 10 = some (sf, ef) →
      sf ≤ ef → (∀ f, env.copy_ok f = false) →
      process_sign_folder env false = none) := by
  refine ⟨fun e he => ?_, fun tr htr hd => ?_,
    fun tr sf ef htr hfr hle hcf => ?_⟩
  · unfold process_sign_folder
    repeat' split
    all_goals simp_all
  · unfold process_sign_folder
    repeat' split
    all_goals simp_all [get_frame_range]
  · obtain ⟨l, hl⟩ := rangeInt_cons hle
    have hcl : copyLoop env.copy_ok false
        (env.output_base ++ "/" ++ env.folder_name)
        (sortStrings env.keypoint_glob) ((sf :: l).enum) = none := by
      rw [List.enum_cons]
      exact copyLoop_fail env.copy_ok _ _ hcf 0 sf _
    unfold process_sign_folder
    repeat' split
    all_goals simp_all

/-- Witness for C1 (amended): on `envLoadFail` a loader failure is caught
and converted into the `Error` dictionary, while on `envZeroDur` even a dry
run raises out of the folder processor. -/
theorem claim_C1_witness :
    process_sign_folder envLoadFail false =
      some ({ error := some ("Error loading morpheme data: " ++ "corrupt") }, []) ∧
    process_sign_folder envZeroDur true = none :=
  ⟨(claim_C1_amended envLoadFail false "WORD0001" "F" "m.json" []
      (by decide) (by decide) (by decide) rfl (by decide)).1 "corrupt" rfl,
   (claim_C1_amended envZeroDur true "WORD0001" "F" "m.json" []
      (by decide) (by decide) (by decide) rfl (by decide)).2.1
      { start_time := 0, end_time := 0, duration := 0 } rfl rfl⟩

/-- Claim C2, counterexample: two environments that differ only in the
filesystem listing order of the same two morpheme matches produce different
outcomes, because the code takes the first glob match without sorting;
with order `[b.json, a.json]` the unparseable `b.json` is selected even
though `a.json` is the lexicographically-first match. -/
theorem claim_C2_counterexample :
    process_sign_folder envOrderBA false =
      some ({ error := some ("Error loading morpheme data: corrupt") }, []) ∧
    process_sign_folder envOrderBA false ≠ process_sign_folder envOrderAB false := by
  constructor
  · with_unfolding_all decide
  · with_unfolding_all decide

/-- Claim C2 (amended): the folder processor uses the head of the glob
result exactly as listed by the filesystem (no sorting): the tail of the
glob list never influences the outcome or the effects. -/
theorem claim_C2_amended (env : Env) (f : String) (tail : List String)
    (dry : Bool) :
    process_sign_folder { env with morpheme_glob := f :: tail } dry =
      process_sign_folder { env with morpheme_glob := [f] } dry := by
  simp only [process_sign_folder, morphemePattern]

end KSL
